import Mathlib

/-!
Shallow embedding of the extraction-and-normalization pipeline of
`src/main.py` (class `AmazonScraper`): the per-fragment field extraction
`_extract_product_details` (lines 83-143), the per-page element loop of
`scrape_amazon_products` (lines 70-75), and the row inserts of
`save_to_database` (lines 146-208).

Conventions of the embedding:
- Python floats are modelled as exact rationals; the texts parsed here are
  short decimal numerals, for which rational arithmetic coincides with the
  decimal reading of the source.
- Python exceptions are modelled with `Except PyError`; a try/except block
  becomes a match recovering the documented default.
- Python string methods are modelled as total structural functions over
  `List Char`. The builtin numeric conversions `float(s)` and `int(s)` are
  modelled for the decimal forms (optional sign, digits, one optional dot
  for `float`); exotic Python forms (exponents, underscores, inf/nan,
  surrounding whitespace inside the numeral, non-ASCII digits) are outside
  the model, and no theorem below depends on them.
-/

/-- Python exception kinds raised by the numeric conversions in
`_extract_product_details`: `float(...)`/`int(...)` raise `ValueError`,
`rating_text.split()[0]` raises `IndexError` on an empty split. -/
inductive PyError where
  | valueError : PyError
  | indexError : PyError
deriving DecidableEq, Repr

/-- Value of a run of decimal digit characters, read left to right
(the value `int` assigns to a pure digit string). -/
def digitsToNat (l : List Char) : Nat :=
  l.foldl (fun n c => 10 * n + (c.toNat - 48)) 0

/-- `int(s)` on a string of digits only: some value iff the run is
nonempty and all characters are decimal digits. -/
def parseDigitsOnly (l : List Char) : Option Nat :=
  if l ≠ [] ∧ l.all Char.isDigit = true then some (digitsToNat l) else none

/-- Character-level body of the `int(s)` model: optional sign followed by
a nonempty digit run. -/
def pyIntParseChars : List Char → Option Int
  | [] => none
  | c :: rest =>
    if c = '+' then (parseDigitsOnly rest).map (fun m : Nat => (m : Int))
    else if c = '-' then (parseDigitsOnly rest).map (fun m : Nat => -(m : Int))
    else (parseDigitsOnly (c :: rest)).map (fun m : Nat => (m : Int))

/-- Model of Python `int(s)` on trimmed text: optional sign followed by a
nonempty digit run; `none` models `ValueError`. -/
def pyIntParse (s : String) : Option Int :=
  pyIntParseChars s.data

/-- Unsigned decimal numeral: digits, optionally a dot and further digits,
with at least one digit overall (`"1"`, `"1."`, `".5"`, `"1.25"`). -/
def parseDecimalCore (l : List Char) : Option ℚ :=
  let intPart := l.takeWhile Char.isDigit
  let rest := l.dropWhile Char.isDigit
  match rest with
  | [] => if intPart = [] then none else some ((digitsToNat intPart : ℚ))
  | c :: fracPart =>
    if c = '.' ∧ fracPart.all Char.isDigit = true ∧ (intPart ≠ [] ∨ fracPart ≠ []) then
      some ((digitsToNat intPart : ℚ) + (digitsToNat fracPart : ℚ) / (10 : ℚ) ^ fracPart.length)
    else none

/-- Character-level body of the `float(s)` model: optional sign then a
decimal numeral. -/
def pyFloatChars : List Char → Option ℚ
  | [] => none
  | c :: rest =>
    if c = '+' then parseDecimalCore rest
    else if c = '-' then (parseDecimalCore rest).map Neg.neg
    else parseDecimalCore (c :: rest)

/-- Model of Python `float(s)` on trimmed text: optional sign then a
decimal numeral; `none` models `ValueError`. -/
def pyFloat (s : String) : Option ℚ :=
  pyFloatChars s.data

/-- Python `int(x)` on a float `x`: truncation toward zero. -/
def pyIntOfFloat (q : ℚ) : Int :=
  let m : Nat := q.num.natAbs / q.den
  if q.num < 0 then -(m : Int) else (m : Int)

/-- `s.replace(c, "")` for a one-character pattern: drop every occurrence
of the character (the only use of `replace` in the source: lines 107-108
drop `$` and `,`, line 119 drops `,`). -/
def removeChar (c : Char) (s : String) : String :=
  String.mk (s.data.filter (fun x => !(x = c)))

/-- Leading and trailing whitespace removal on a character list. -/
def trimChars (l : List Char) : List Char :=
  ((l.dropWhile Char.isWhitespace).reverse.dropWhile Char.isWhitespace).reverse

/-- Python `s.strip()`. -/
def pyStrip (s : String) : String :=
  String.mk (trimChars s.data)

/-- Python `s.split()[0]`: first maximal run of non-whitespace characters;
`none` models the `IndexError` on whitespace-only input. -/
def pySplitHead (s : String) : Option String :=
  match s.data.dropWhile Char.isWhitespace with
  | [] => none
  | c :: cs => some (String.mk (c :: cs.takeWhile (fun x => !(x.isWhitespace))))

/-- Python `s.split("+")[0]`: the characters before the first `+`. -/
def beforePlus (s : String) : String :=
  String.mk (s.data.takeWhile (fun c => !(c = '+')))

example : pyFloat "1234.56" = some (1234.56 : ℚ) := by with_unfolding_all rfl
example : pyFloat "abc" = none := by decide
example : pyIntParse "-5" = some (-5) := by decide
example : pyIntParse "(87)" = none := by decide
example : pyIntOfFloat (-50.5 : ℚ) = -50 := by with_unfolding_all rfl
example : pySplitHead "4.5 out of 5" = some "4.5" := by decide

/-- The normalized record returned by `_extract_product_details`
(lines 136-143 of `src/main.py`). -/
structure ProductRecord where
  product_name : String
  price : ℚ
  rating : Option ℚ
  discount : Option Int
  review_count : Int
  amount_bought : Int
deriving DecidableEq, Repr

/-- A raw item fragment: the selector-lookup capabilities of one product
element. `findText` models `find_element(...).text` (line 87), `findRating`
models the `WebDriverWait`/`innerText` lookup (lines 93-95); `none` models
any lookup exception. -/
structure Fragment where
  findText : String → Option String
  findRating : String → Option String

/-- `safe_find_text` (lines 85-89): trimmed text of the first match, or the
given default when the lookup fails. -/
def safe_find_text (frag : Fragment) (selector : String) (dflt : String) : String :=
  match frag.findText selector with
  | some t => pyStrip t
  | none => dflt

/-- `safe_find_rating` (lines 91-97): `innerText` of the first match
(not trimmed), or the given default when the lookup fails. -/
def safe_find_rating (frag : Fragment) (selector : String) (dflt : String) : String :=
  match frag.findRating selector with
  | some t => t
  | none => dflt

/-- Line 99: original-price text. -/
def originalPriceTextOf (frag : Fragment) : String :=
  safe_find_text frag ".a-price.a-text-price" "N/A"

/-- Line 100: current-price text. -/
def currentPriceTextOf (frag : Fragment) : String :=
  safe_find_text frag ".a-price-whole" "N/A"

/-- Line 103: rating text. -/
def ratingTextOf (frag : Fragment) : String :=
  safe_find_rating frag ".a-icon-alt" "N/A"

/-- Line 104: review-count text, with default `"0"`. -/
def reviewTextOf (frag : Fragment) : String :=
  safe_find_text frag ".a-size-base" "0"

/-- Line 128: amount-bought text. -/
def amountTextOf (frag : Fragment) : String :=
  safe_find_text frag ".a-size-base.a-color-secondary" "N/A"

/-- Line 137: product-name text. -/
def nameTextOf (frag : Fragment) : String :=
  safe_find_text frag "h2[aria-label] > span" "N/A"

/-- Price conversion (lines 107-108): text `"N/A"` means the selector
missed and yields `None`; otherwise the `$` and `,` characters are dropped
and the residue goes through `float(...)`, whose `ValueError` on a
non-numeric residue is NOT caught anywhere in `_extract_product_details`. -/
def parsePriceField (t : String) : Except PyError (Option ℚ) :=
  if t = "N/A" then Except.ok none
  else
    match pyFloat (removeChar ',' (removeChar '$' t)) with
    | some q => Except.ok (some q)
    | none => Except.error PyError.valueError

/-- Rating conversion, body of the `try` at lines 114-115:
`float(rating_text.split()[0])` guarded by `rating_text != "N/A"`. -/
def parseRatingComputation (t : String) : Except PyError (Option ℚ) :=
  if t = "N/A" then Except.ok none
  else
    match pySplitHead t with
    | none => Except.error PyError.indexError
    | some tok =>
      match pyFloat tok with
      | some q => Except.ok (some q)
      | none => Except.error PyError.valueError

/-- Rating conversion (lines 114-117): the `except (ValueError, IndexError)`
arm resolves any error to `None`. -/
def parseRatingField (t : String) : Option ℚ :=
  match parseRatingComputation t with
  | Except.ok v => v
  | Except.error _ => none

/-- Review-count conversion, body of the `try` at lines 118-119:
`int(review_count_text.replace(",", ""))` guarded by the text not being
`"N/A"`. -/
def parseReviewCountComputation (t : String) : Except PyError Int :=
  if t = "N/A" then Except.ok 0
  else
    match pyIntParse (removeChar ',' t) with
    | some n => Except.ok n
    | none => Except.error PyError.valueError

/-- Review-count conversion (lines 118-122): the
`except (ValueError, TypeError)` arm resolves any error to `0`. -/
def parseReviewCountField (t : String) : Int :=
  match parseReviewCountComputation t with
  | Except.ok v => v
  | Except.error _ => 0

/-- Line 130: the amount-bought text reduced to the stripped part before
the first `+` when the text contains `+`, else the text itself. -/
def amountDigitsSource (raw : String) : String :=
  if raw.data.contains '+' = true then pyStrip (beforePlus raw) else raw

/-- Amount-bought conversion (lines 130-134): collect the digit characters
of the reduced text and run them through `int(...)`; the `except
ValueError` arm (raised exactly when no digit remains) resolves to `0`. -/
def amountBoughtOf (raw : String) : Int :=
  match pyIntParse (String.mk ((amountDigitsSource raw).data.filter Char.isDigit)) with
  | some n => n
  | none => 0

/-- Original price after conversion (line 107). -/
def originalPriceOf (frag : Fragment) : Except PyError (Option ℚ) :=
  parsePriceField (originalPriceTextOf frag)

/-- Current price after conversion (line 108), before the `None`-to-`0`
coercion of lines 110-111. -/
def currentPriceRawOf (frag : Fragment) : Except PyError (Option ℚ) :=
  parsePriceField (currentPriceTextOf frag)

/-- `_extract_product_details` (lines 83-143). The two price conversions
are the only statements that can raise: every other field conversion sits
inside a try/except resolving to its default. After lines 110-111 the
current price is never `None`, so the guard at line 124 reduces to the
original price being present; the discount at line 126 is `int(...)` of the
float difference, truncation toward zero. -/
def extractProductDetails (frag : Fragment) : Except PyError ProductRecord :=
  match originalPriceOf frag, currentPriceRawOf frag with
  | Except.error e, _ => Except.error e
  | Except.ok _, Except.error e => Except.error e
  | Except.ok original_price, Except.ok current_price_opt =>
    let current_price : ℚ := current_price_opt.getD 0
    Except.ok {
      product_name := nameTextOf frag,
      price := current_price,
      rating := parseRatingField (ratingTextOf frag),
      discount :=
        match original_price with
        | some op => some (pyIntOfFloat (op - current_price))
        | none => none,
      review_count := parseReviewCountField (reviewTextOf frag),
      amount_bought := amountBoughtOf (amountTextOf frag) }

/-- The per-element loop of `scrape_amazon_products` (lines 70-75): each
element is extracted inside a try/except; a successful extraction appends
its record, a raising one only logs and the loop continues. -/
def scrapeElements : List Fragment → List ProductRecord
  | [] => []
  | frag :: rest =>
    match extractProductDetails frag with
    | Except.ok r => r :: scrapeElements rest
    | Except.error _ => scrapeElements rest

/-- One row of the `products` table (insert at lines 151-154, 167-174). -/
structure ProductsRow where
  product_id : Nat
  product_name : String
  price : ℚ
  discount : Option Int
deriving DecidableEq, Repr

/-- One row of the `Reviews` table (insert at lines 156-159). -/
structure ReviewsRow where
  product_id : Nat
  rating : Option ℚ
  review_count : Int
deriving DecidableEq, Repr

/-- One row of the `Sales` table (insert at lines 161-164). -/
structure SalesRow where
  product_id : Nat
  amount_bought : Int
deriving DecidableEq, Repr

/-- State of the database across `save_to_database`: the three tables plus
the sequence value behind `RETURNING Product_Id`. -/
structure DBState where
  products : List ProductsRow
  reviews : List ReviewsRow
  sales : List SalesRow
  nextId : Nat
deriving DecidableEq, Repr

/-- `cursor.execute(insert_product_query, ...)` followed by
`cursor.fetchone()[0]` (lines 167-175): appends a products row and returns
the id it was assigned. -/
def execInsertProduct (db : DBState) (name : String) (price : ℚ)
    (discount : Option Int) : DBState × Nat :=
  ({ db with
      products := db.products ++ [⟨db.nextId, name, price, discount⟩],
      nextId := db.nextId + 1 },
   db.nextId)

/-- `cursor.execute(insert_review_query, ...)` (lines 177-184 and again
186-193). -/
def execInsertReview (db : DBState) (pid : Nat) (rating : Option ℚ)
    (rc : Int) : DBState :=
  { db with reviews := db.reviews ++ [⟨pid, rating, rc⟩] }

/-- `cursor.execute(insert_sales_query, ...)` (lines 195-201). -/
def execInsertSales (db : DBState) (pid : Nat) (ab : Int) : DBState :=
  { db with sales := db.sales ++ [⟨pid, ab⟩] }

/-- The body of the `for product in products` loop of `save_to_database`
(lines 166-201): one products insert, the reviews insert executed twice
with the same parameters (the statement is duplicated at lines 177-184 and
186-193), and one sales insert. -/
def saveProductRow (db : DBState) (p : ProductRecord) : DBState :=
  let r1 := execInsertProduct db p.product_name p.price p.discount
  let db1 := r1.1
  let pid := r1.2
  let db2 := execInsertReview db1 pid p.rating p.review_count
  let db3 := execInsertReview db2 pid p.rating p.review_count
  execInsertSales db3 pid p.amount_bought

/-- `save_to_database` (lines 146-208) restricted to its insert loop: the
rows produced by iterating `saveProductRow` over the product list. -/
def save_to_database (db : DBState) : List ProductRecord → DBState
  | [] => db
  | p :: rest => save_to_database (saveProductRow db p) rest

/-- The review rows the claim predicts: two identical rows per product,
with ids assigned sequentially from the given one. -/
def dupReviewRows (n : Nat) : List ProductRecord → List ReviewsRow
  | [] => []
  | p :: rest =>
    ⟨n, p.rating, p.review_count⟩ :: ⟨n, p.rating, p.review_count⟩ ::
      dupReviewRows (n + 1) rest

/-- Projection of a successful extraction to its discount field. -/
def extractedDiscount (frag : Fragment) : Option (Option Int) :=
  (extractProductDetails frag).toOption.map ProductRecord.discount

/-- Projection of a successful extraction to its review-count field. -/
def extractedReviewCount (frag : Fragment) : Option Int :=
  (extractProductDetails frag).toOption.map ProductRecord.review_count

/-- A fragment whose original price exceeds nothing: original 100.00,
current 150.50, so the float difference is -50.5. -/
def fragFloorCex : Fragment :=
  { findText := fun sel =>
      if sel = ".a-price.a-text-price" then some "$100.00"
      else if sel = ".a-price-whole" then some "$150.50"
      else none,
    findRating := fun _ => none }

/-- A fragment matching the discount example of the spec: original 200.00,
current 150.00. -/
def fragPricesOk : Fragment :=
  { findText := fun sel =>
      if sel = ".a-price.a-text-price" then some "$200.00"
      else if sel = ".a-price-whole" then some "$150.00"
      else none,
    findRating := fun _ => none }

/-- A fragment whose original-price selector yields non-numeric text. -/
def fragBadPrice : Fragment :=
  { findText := fun sel =>
      if sel = ".a-price.a-text-price" then some "abc" else none,
    findRating := fun _ => none }

/-- A fragment whose review-count selector yields a negative numeral. -/
def fragNegReview : Fragment :=
  { findText := fun sel =>
      if sel = ".a-size-base" then some "-5" else none,
    findRating := fun _ => none }

/-- A well-behaved fragment. -/
def fragWidget : Fragment :=
  { findText := fun sel =>
      if sel = "h2[aria-label] > span" then some "Widget"
      else if sel = ".a-price-whole" then some "$19.99"
      else if sel = ".a-size-base" then some "1,234"
      else if sel = ".a-size-base.a-color-secondary" then some "2K+ bought in past month"
      else none,
    findRating := fun sel =>
      if sel = ".a-icon-alt" then some "4.5 out of 5 stars" else none }

example : extractedDiscount fragFloorCex = some (some (-50)) := by
  with_unfolding_all rfl
example : extractedDiscount fragPricesOk = some (some 50) := by
  with_unfolding_all rfl
example : extractProductDetails fragBadPrice = Except.error PyError.valueError := by
  with_unfolding_all rfl
example : extractedReviewCount fragNegReview = some (-5) := by
  with_unfolding_all rfl
example : extractProductDetails fragWidget = Except.ok
    ⟨"Widget", (19.99 : ℚ), some (4.5 : ℚ), none, 1234, 2⟩ := by
  with_unfolding_all rfl

/-- Modelled on the claim wording for C7: the integer formed from the
digit characters of a text, 0 when there are none. -/
def digitRunValueSpec (l : List Char) : Int :=
  if l.filter Char.isDigit = [] then 0
  else ((digitsToNat (l.filter Char.isDigit) : Nat) : Int)

/-- C3 counterexample: on the non-numeric residue `"abc"` the price
conversion raises `ValueError` (the `float` call at line 107 is not inside
any try/except), instead of yielding absent as the claim states. -/
theorem parse_price_raises_cex :
    parsePriceField "abc" = Except.error PyError.valueError ∧
    parsePriceField "abc" ≠ Except.ok none := by
  have h : parsePriceField "abc" = Except.error PyError.valueError := by
    with_unfolding_all rfl
  refine ⟨h, ?_⟩
  rw [h]
  simp

/-- C3 amended: absent input (the `"N/A"` default) yields absent;
`"$1,234.56"` has its dollar sign and comma stripped and parses to
`1234.56`; and the conversion raises `ValueError` exactly when the text is
not `"N/A"` and the stripped residue is not a decimal numeral — a
non-numeric residue raises rather than yielding absent. -/
theorem parse_price_spec :
    parsePriceField "N/A" = Except.ok none ∧
    parsePriceField "$1,234.56" = Except.ok (some (1234.56 : ℚ)) ∧
    ∀ t : String, parsePriceField t = Except.error PyError.valueError ↔
      (t ≠ "N/A" ∧ pyFloat (removeChar ',' (removeChar '$' t)) = none) := by
  refine ⟨by with_unfolding_all rfl, by with_unfolding_all rfl, ?_⟩
  intro t
  by_cases ht : t = "N/A"
  · simp [parsePriceField, ht]
  · cases h : pyFloat (removeChar ',' (removeChar '$' t)) <;>
      simp [parsePriceField, ht, h]

/-- Witness for `parse_price_spec`: the spec example `"$1,234.56"`. -/
theorem parse_price_spec_witness :
    parsePriceField "$1,234.56" = Except.ok (some (1234.56 : ℚ)) :=
  parse_price_spec.2.1

/-- C4 counterexample: the parenthesis form `"(87)"` does not parse — the
code only removes commas (line 119), `int("(87)")` raises, and the except
arm resolves to 0, not 87. -/
theorem review_count_paren_cex :
    parseReviewCountField "(87)" = 0 ∧ (0 : Int) ≠ 87 := by
  exact ⟨by decide, by decide⟩

/-- C4 amended: the review-count conversion removes only commas and parses
the remainder as an optionally signed integer numeral: `"1,234"` yields
1234, the empty text and the absent default `"N/A"` yield 0, and any text
still containing a non-digit after comma removal — the parenthesis form
`"(87)"` included — yields 0; whenever the comma-stripped text is not an
integer numeral the result is 0. -/
theorem parse_review_count_spec :
    parseReviewCountField "1,234" = 1234 ∧
    parseReviewCountField "" = 0 ∧
    parseReviewCountField "N/A" = 0 ∧
    parseReviewCountField "(87)" = 0 ∧
    ∀ t : String, parseReviewCountField t = 0 ∨
      pyIntParse (removeChar ',' t) = some (parseReviewCountField t) := by
  refine ⟨by decide, by decide, by decide, by decide, ?_⟩
  intro t
  by_cases ht : t = "N/A"
  · exact Or.inl (by simp [parseReviewCountField, parseReviewCountComputation, ht])
  · cases h : pyIntParse (removeChar ',' t) with
    | none =>
      exact Or.inl (by simp [parseReviewCountField, parseReviewCountComputation, ht, h])
    | some n =>
      exact Or.inr (by simp [parseReviewCountField, parseReviewCountComputation, ht, h])

/-- Witness for `parse_review_count_spec`: the spec example `"1,234"`. -/
theorem parse_review_count_spec_witness :
    parseReviewCountField "1,234" = 1234 :=
  parse_review_count_spec.1

/-- Helper: a value produced by the model of `int(...)` is non-negative
unless its text begins with a minus sign. -/
theorem pyIntParse_nonneg_or_minus (s : String) (n : Int)
    (h : pyIntParse s = some n) : 0 ≤ n ∨ s.data.head? = some '-' := by
  unfold pyIntParse at h
  rcases hd : s.data with _ | ⟨c, rest⟩ <;> rw [hd] at h
  · exact absurd h (by simp [pyIntParseChars])
  · by_cases hc : c = '+'
    · simp only [pyIntParseChars, if_pos hc] at h
      rcases Option.map_eq_some'.mp h with ⟨m, _, rfl⟩
      exact Or.inl (Int.natCast_nonneg m)
    · by_cases hm : c = '-'
      · right
        simp [hm]
      · simp only [pyIntParseChars, if_neg hc, if_neg hm] at h
        rcases Option.map_eq_some'.mp h with ⟨m, _, rfl⟩
        exact Or.inl (Int.natCast_nonneg m)

/-- Whitespace characters are not decimal digits. -/
theorem ws_not_digit (c : Char) (h : c.isWhitespace = true) : c.isDigit = false := by
  simp [Char.isWhitespace] at h
  rcases h with ((h | h) | h) | h <;> subst h <;> rfl

/-- Dropping leading whitespace does not change the digit characters. -/
theorem filter_digit_dropWhile_ws (l : List Char) :
    (l.dropWhile Char.isWhitespace).filter Char.isDigit = l.filter Char.isDigit := by
  induction l with
  | nil => rfl
  | cons c rest ih =>
    cases h : c.isWhitespace with
    | true =>
      have hd := ws_not_digit c h
      simp [List.dropWhile_cons, List.filter_cons, h, hd, ih]
    | false =>
      simp [List.dropWhile_cons, h]

/-- Stripping surrounding whitespace does not change the digit characters. -/
theorem filter_digit_trim (l : List Char) :
    (trimChars l).filter Char.isDigit = l.filter Char.isDigit := by
  simp [trimChars, List.filter_reverse, filter_digit_dropWhile_ws]

/-- The digit filter yields only digits. -/
theorem all_filter_digits (l : List Char) :
    (l.filter Char.isDigit).all Char.isDigit = true := by
  rw [List.all_eq_true]
  intro c hc
  exact (List.mem_filter.mp hc).2

/-- `int(...)` on a pure digit run: fails exactly on the empty run and
otherwise returns the decimal value of the digits. -/
theorem pyIntParseChars_digits (ds : List Char) (h : ds.all Char.isDigit = true) :
    pyIntParseChars ds =
      if ds = [] then none else some ((digitsToNat ds : Int)) := by
  cases ds with
  | nil => rfl
  | cons c rest =>
    rcases List.all_eq_true.mp h c (by simp) with hc
    have hplus : ¬ c = '+' := by
      intro he
      rw [he] at hc
      exact absurd hc (by decide)
    have hminus : ¬ c = '-' := by
      intro he
      rw [he] at hc
      exact absurd hc (by decide)
    simp only [pyIntParseChars, if_neg hplus, if_neg hminus]
    have hne : ¬ (c :: rest) = ([] : List Char) := by simp
    simp [parseDigitsOnly, hne, h]

/-- C7: the parsed amount-bought value equals the integer formed from the
digit characters before the first `+` when the text contains `+`,
otherwise from all digit characters of the text, and is 0 when no digit
remains or the text is missing (the `"N/A"` default). -/
theorem amount_bought_spec :
    amountBoughtOf "N/A" = 0 ∧
    ∀ raw : String, amountBoughtOf raw =
      digitRunValueSpec (if raw.data.contains '+' = true
        then (beforePlus raw).data else raw.data) := by
  refine ⟨by decide, fun raw => ?_⟩
  unfold amountBoughtOf pyIntParse
  have hfd : (amountDigitsSource raw).data.filter Char.isDigit =
      (if raw.data.contains '+' = true then (beforePlus raw).data
        else raw.data).filter Char.isDigit := by
    unfold amountDigitsSource
    by_cases hp : raw.data.contains '+' = true
    · rw [if_pos hp, if_pos hp]
      exact filter_digit_trim (beforePlus raw).data
    · rw [if_neg hp, if_neg hp]
  rw [show (String.mk ((amountDigitsSource raw).data.filter Char.isDigit)).data
      = (amountDigitsSource raw).data.filter Char.isDigit from rfl]
  rw [hfd, pyIntParseChars_digits _ (all_filter_digits _)]
  unfold digitRunValueSpec
  by_cases he : (if raw.data.contains '+' = true then (beforePlus raw).data
      else raw.data).filter Char.isDigit = []
  · rw [if_pos he, if_pos he]
  · rw [if_neg he, if_neg he]

/-- Witness for `amount_bought_spec` on the text
`"2K+ bought in past month"`: the digits before the `+` form the value. -/
theorem amount_bought_spec_witness :
    amountBoughtOf "2K+ bought in past month" =
      digitRunValueSpec (if ("2K+ bought in past month").data.contains '+' = true
        then (beforePlus "2K+ bought in past month").data
        else ("2K+ bought in past month").data) :=
  amount_bought_spec.2 "2K+ bought in past month"

/-- C8: a raising fragment never aborts the batch — the per-element
try/except (lines 71-75) drops the failed element's record and the loop
still processes every element after it. -/
theorem fragment_failure_isolated (xs ys : List Fragment) (bad : Fragment)
    (e : PyError) (h : extractProductDetails bad = Except.error e) :
    scrapeElements (xs ++ bad :: ys) = scrapeElements xs ++ scrapeElements ys := by
  induction xs with
  | nil => simp [scrapeElements, h]
  | cons x rest ih =>
    simp only [List.cons_append, scrapeElements]
    cases hx : extractProductDetails x <;> simp [hx, ih]

/-- Witness for `fragment_failure_isolated`: a batch of three elements
whose middle one raises yields exactly the records of the two others. -/
theorem fragment_failure_isolated_witness :
    scrapeElements ([fragWidget] ++ fragBadPrice :: [fragPricesOk]) =
      scrapeElements [fragWidget] ++ scrapeElements [fragPricesOk] :=
  fragment_failure_isolated [fragWidget] [fragPricesOk] fragBadPrice
    PyError.valueError (by with_unfolding_all rfl)

/-- C9: the assembler is deterministic — two fragments with the same
selector-lookup results yield the same outcome, record for record; no
hidden state influences the output. -/
theorem assemble_deterministic (f g : Fragment)
    (ht : ∀ sel, f.findText sel = g.findText sel)
    (hr : ∀ sel, f.findRating sel = g.findRating sel) :
    extractProductDetails f = extractProductDetails g := by
  simp only [extractProductDetails, originalPriceOf, currentPriceRawOf,
    originalPriceTextOf, currentPriceTextOf, nameTextOf, ratingTextOf,
    reviewTextOf, amountTextOf, safe_find_text, safe_find_rating, ht, hr]

/-- Witness for `assemble_deterministic`: re-running the assembler on the
same fragment yields the identical result. -/
theorem assemble_deterministic_witness :
    extractProductDetails fragWidget = extractProductDetails fragWidget :=
  assemble_deterministic fragWidget fragWidget (fun _ => rfl) (fun _ => rfl)

/-- C10: `save_to_database` appends exactly one products row and one sales
row per product, but two identical Reviews rows per product — the reviews
insert is executed twice with the same `(product_id, rating,
review_count)` parameters (the duplicated statement at lines 177-193). -/
theorem save_reviews_inserted_twice (db : DBState) (ps : List ProductRecord) :
    (save_to_database db ps).products.length = db.products.length + ps.length ∧
    (save_to_database db ps).sales.length = db.sales.length + ps.length ∧
    (save_to_database db ps).reviews = db.reviews ++ dupReviewRows db.nextId ps := by
  induction ps generalizing db with
  | nil => simp [save_to_database, dupReviewRows]
  | cons p rest ih =>
    rw [save_to_database]
    have hsp : saveProductRow db p =
        ⟨db.products ++ [⟨db.nextId, p.product_name, p.price, p.discount⟩],
         db.reviews ++ [⟨db.nextId, p.rating, p.review_count⟩,
                        ⟨db.nextId, p.rating, p.review_count⟩],
         db.sales ++ [⟨db.nextId, p.amount_bought⟩],
         db.nextId + 1⟩ := by
      simp [saveProductRow, execInsertProduct, execInsertReview, execInsertSales]
    rw [hsp]
    have hd := ih ⟨db.products ++ [⟨db.nextId, p.product_name, p.price, p.discount⟩],
                  db.reviews ++ [⟨db.nextId, p.rating, p.review_count⟩,
                                 ⟨db.nextId, p.rating, p.review_count⟩],
                  db.sales ++ [⟨db.nextId, p.amount_bought⟩],
                  db.nextId + 1⟩
    refine ⟨?_, ?_, ?_⟩
    · rw [hd.1]
      simp
      omega
    · rw [hd.2.1]
      simp
      omega
    · rw [hd.2.2, dupReviewRows]
      simp

/-- Witness for `save_reviews_inserted_twice`: saving one product into an
empty database yields one products row, one sales row and the duplicated
pair of review rows. -/
theorem save_reviews_inserted_twice_witness :
    (save_to_database ⟨[], [], [], 1⟩
        [⟨"w", (0 : ℚ), none, none, 0, 0⟩]).products.length =
      (DBState.mk [] [] [] 1).products.length +
        [(⟨"w", (0 : ℚ), none, none, 0, 0⟩ : ProductRecord)].length ∧
    (save_to_database ⟨[], [], [], 1⟩
        [⟨"w", (0 : ℚ), none, none, 0, 0⟩]).sales.length =
      (DBState.mk [] [] [] 1).sales.length +
        [(⟨"w", (0 : ℚ), none, none, 0, 0⟩ : ProductRecord)].length ∧
    (save_to_database ⟨[], [], [], 1⟩
        [⟨"w", (0 : ℚ), none, none, 0, 0⟩]).reviews =
      (DBState.mk [] [] [] 1).reviews ++
        dupReviewRows (DBState.mk [] [] [] 1).nextId
          [⟨"w", (0 : ℚ), none, none, 0, 0⟩] :=
  save_reviews_inserted_twice ⟨[], [], [], 1⟩ [⟨"w", (0 : ℚ), none, none, 0, 0⟩]

/-- C1 counterexample: with original price 100.00 and current price 150.50
the code computes `int(100.0 - 150.5) = -50` (truncation toward zero,
line 126), while the floor of the difference is -51; so `discount_amount`
does not equal `floor(original_price - current_price)`. -/
theorem discount_floor_cex :
    extractedDiscount fragFloorCex = some (some (-50)) ∧
    (⌊(100 : ℚ) - (150.5 : ℚ)⌋ : Int) = -51 ∧
    some (some (-50 : Int)) ≠ some (some (⌊(100 : ℚ) - (150.5 : ℚ)⌋ : Int)) := by
  have hfloor : (⌊(100 : ℚ) - (150.5 : ℚ)⌋ : Int) = -51 := by
    rw [Int.floor_eq_iff]
    norm_num
  refine ⟨by with_unfolding_all rfl, hfloor, ?_⟩
  rw [hfloor]
  decide

/-- C1 amended: whenever neither price conversion raises,
`discount_amount` is defined iff `original_price` is defined — the current
price is always defined at that point, having been coerced to 0 when
absent (lines 110-111) — and when defined it equals the truncation toward
zero (Python `int`) of `original_price - current_price`, not the floor; in
particular, when `original_price` is absent, `discount_amount` is absent. -/
theorem discount_invariant_trunc (frag : Fragment) (op cp : Option ℚ)
    (h1 : originalPriceOf frag = Except.ok op)
    (h2 : currentPriceRawOf frag = Except.ok cp) :
    ∃ r, extractProductDetails frag = Except.ok r ∧
      (r.discount.isSome ↔ op.isSome) ∧
      r.discount = op.map (fun o => pyIntOfFloat (o - cp.getD 0)) ∧
      (op = none → r.discount = none) := by
  cases op with
  | none =>
    refine ⟨{ product_name := nameTextOf frag, price := cp.getD 0,
              rating := parseRatingField (ratingTextOf frag),
              discount := none,
              review_count := parseReviewCountField (reviewTextOf frag),
              amount_bought := amountBoughtOf (amountTextOf frag) },
            ?_, by simp, by simp, by simp⟩
    simp only [extractProductDetails, h1, h2]
  | some o =>
    refine ⟨{ product_name := nameTextOf frag, price := cp.getD 0,
              rating := parseRatingField (ratingTextOf frag),
              discount := some (pyIntOfFloat (o - cp.getD 0)),
              review_count := parseReviewCountField (reviewTextOf frag),
              amount_bought := amountBoughtOf (amountTextOf frag) },
            ?_, by simp, by simp, by simp⟩
    simp only [extractProductDetails, h1, h2]

/-- Witness for `discount_invariant_trunc` at the discount example of the
spec: original 200.00, current 150.00, discount 50. -/
theorem discount_invariant_trunc_witness :
    ∃ r, extractProductDetails fragPricesOk = Except.ok r ∧
      (r.discount.isSome ↔ (some (200 : ℚ)).isSome) ∧
      r.discount = (some (200 : ℚ)).map
        (fun o => pyIntOfFloat (o - (some (150 : ℚ)).getD 0)) ∧
      (some (200 : ℚ) = none → r.discount = none) :=
  discount_invariant_trunc fragPricesOk (some 200) (some 150)
    (by with_unfolding_all rfl) (by with_unfolding_all rfl)

/-- C2 counterexample: a fragment whose original-price selector yields the
non-numeric text `"abc"` makes `_extract_product_details` raise
`ValueError` (line 107 is outside every try/except), so the assembler is
not total and this fragment yields no record. -/
theorem assemble_raises_cex :
    extractProductDetails fragBadPrice = Except.error PyError.valueError ∧
    ∀ r : ProductRecord, extractProductDetails fragBadPrice ≠ Except.ok r := by
  have h : extractProductDetails fragBadPrice = Except.error PyError.valueError := by
    with_unfolding_all rfl
  refine ⟨h, fun r hr => ?_⟩
  rw [h] at hr
  exact absurd hr (by simp)

/-- C2 amended: the assembler returns a completed record exactly when the
two price conversions succeed (the text is the absent marker `"N/A"` or
its dollar- and comma-stripped residue is a decimal numeral); every other
field-level failure degrades to its documented default, but a non-numeric
price text makes the assembler raise instead of degrading. -/
theorem assemble_ok_iff_prices_parse (frag : Fragment) :
    (∃ r, extractProductDetails frag = Except.ok r) ↔
      ((∃ a, originalPriceOf frag = Except.ok a) ∧
       (∃ b, currentPriceRawOf frag = Except.ok b)) := by
  cases h1 : originalPriceOf frag <;> cases h2 : currentPriceRawOf frag <;>
    simp [extractProductDetails, h1, h2]

/-- Witness for `assemble_ok_iff_prices_parse`: on a fragment whose two
price conversions succeed, a record exists. -/
theorem assemble_ok_iff_prices_parse_witness :
    ∃ r, extractProductDetails fragWidget = Except.ok r :=
  (assemble_ok_iff_prices_parse fragWidget).mpr
    ⟨⟨none, by with_unfolding_all rfl⟩,
     ⟨some (19.99 : ℚ), by with_unfolding_all rfl⟩⟩

/-- C5 counterexample: review text `"-5"` parses through
`int("-5") = -5` (line 119), so the assembled record carries a negative
`review_count`. -/
theorem review_count_negative_cex :
    extractedReviewCount fragNegReview = some (-5) ∧ ¬ (0 : Int) ≤ -5 := by
  exact ⟨by with_unfolding_all rfl, by decide⟩

/-- C5 amended: the `review_count` of every assembled record is a defined
integer — missing or unparsable review text maps to 0 — and it is
non-negative unless the comma-stripped review text begins with a minus
sign, in which case it can be negative. -/
theorem review_count_defined_signed (frag : Fragment) (r : ProductRecord)
    (h : extractProductDetails frag = Except.ok r) :
    0 ≤ r.review_count ∨
      (removeChar ',' (reviewTextOf frag)).data.head? = some '-' := by
  have hr : r.review_count = parseReviewCountField (reviewTextOf frag) := by
    cases h1 : originalPriceOf frag <;> cases h2 : currentPriceRawOf frag <;>
      simp [extractProductDetails, h1, h2] at h
    rw [← h]
  rw [hr]
  unfold parseReviewCountField parseReviewCountComputation
  by_cases ht : reviewTextOf frag = "N/A"
  · simp [ht]
  · rw [if_neg ht]
    cases hp : pyIntParse (removeChar ',' (reviewTextOf frag)) with
    | none => simp
    | some n =>
      simp only
      rcases pyIntParse_nonneg_or_minus _ n hp with hn | hm
      · exact Or.inl hn
      · exact Or.inr hm

/-- Witness for `review_count_defined_signed` on a well-behaved fragment
with review text `"1,234"`. -/
theorem review_count_defined_signed_witness :
    0 ≤ (⟨"Widget", (19.99 : ℚ), some (4.5 : ℚ), none, 1234, 2⟩ :
        ProductRecord).review_count ∨
      (removeChar ',' (reviewTextOf fragWidget)).data.head? = some '-' :=
  review_count_defined_signed fragWidget _ (by with_unfolding_all rfl)

/-- C6 counterexample: `"Rated 4.5 stars"` contains the decimal substring
`4.5`, but the code takes `split()[0]` (line 115), the token `"Rated"`,
whose `float` conversion fails, so the rating is absent rather than 4.5. -/
theorem rating_first_token_cex :
    parseRatingField "Rated 4.5 stars" = none ∧
    parseRatingField "Rated 4.5 stars" ≠ some (4.5 : ℚ) := by
  constructor
  · decide
  · intro h
    exact absurd ((by decide : parseRatingField "Rated 4.5 stars" = none) ▸ h)
      (by simp)

/-- C6 amended: the rating conversion parses the first
whitespace-delimited token of the text as a decimal number, yielding
absent when the input is absent (`"N/A"`), has no token, or has a
non-numeric first token — a decimal substring later in the text is never
found. `"4.5 out of 5 stars"` yields 4.5; for every text the result is
`float` applied to `split()[0]`, with errors resolved to absent. -/
theorem parse_rating_spec :
    parseRatingField "4.5 out of 5 stars" = some (4.5 : ℚ) ∧
    parseRatingField "N/A" = none ∧
    parseRatingField "" = none ∧
    ∀ t : String, parseRatingField t = Option.bind (pySplitHead t) pyFloat := by
  refine ⟨by with_unfolding_all rfl, by decide, by decide, ?_⟩
  intro t
  by_cases ht : t = "N/A"
  · subst ht
    decide
  · cases h : pySplitHead t with
    | none => simp [parseRatingField, parseRatingComputation, ht, h]
    | some tok =>
      cases h2 : pyFloat tok <;>
        simp [parseRatingField, parseRatingComputation, ht, h, h2]

/-- Witness for `parse_rating_spec`: the spec example
`"4.5 out of 5 stars"`. -/
theorem parse_rating_spec_witness :
    parseRatingField "4.5 out of 5 stars" = some (4.5 : ℚ) :=
  parse_rating_spec.1
